import Mathlib

/-!
Verification of the ticket-tagger conditional HTTP cache layer and webhook
handler, shallowly embedded from `src/Github.ts` (cache key computation,
conditional fetch, repository config operations) and `src/WebhookApp.js`
(issue-opened handler).  Stateful code is modelled by explicit state passing:
the Mongo-backed `CacheRecord` collection becomes an association list, an HTTP
round trip becomes a function of the origin's response, and thrown JS errors
become `Except.error`.
-/

set_option autoImplicit false

namespace TicketTagger

/--
Request headers as accepted by node-fetch's `RequestInit.headers`
(`Github.ts:100-115` distinguishes exactly these shapes):
`null`/undefined headers, an array of `[name, ...values]` entries
(modelled as name × value list), a node-fetch `Headers` instance
(modelled by its name/value entries; `Headers.get` is case-insensitive),
and a plain object, of which the code only reads the `Authorization` and
`authorization` properties (`authCap` resp. `authLow` below).
-/
inductive RequestHeaders where
  | null
  | arr (entries : List (String × List String))
  | headersObj (entries : List (String × String))
  | obj (authCap : Option String) (authLow : Option String)
  deriving DecidableEq

/--
Modelled from the spec: Node's `crypto` MD5 hex digest is library code, not
part of this repository.  Spec §4.1 requires only a deterministic digest whose
collisions are negligible, so the digest is modelled as a collision-free
(injective) function of the hashed byte string: the identity.
-/
def md5Hex (s : String) : String := s

/-- `toLocaleLowerCase()` on a header name (Github.ts:105), modelled
character-wise (header names are ASCII). -/
def lowerAscii (s : String) : String := ⟨s.data.map Char.toLower⟩

/-- `CacheKeyComputer._getCacheKeyComponents` (Github.ts:92-95):
yields the namespace tag `"github"` and the request url. -/
def cacheKeyComponents (url : String) : List String := ["github", url]

/-- `CacheKeyComputer.computeCacheKey` (Github.ts:84-90): feed every component
into the md5 hash (equivalently, digest their concatenation). -/
def computeCacheKey (url : String) : String :=
  md5Hex (String.join (cacheKeyComponents url))

/--
The authorization-value extraction of
`AuthorizationCacheKeyComputer._getCacheKeyComponents` (Github.ts:102-115):
`null` headers throw `"headers is null"`; an array is scanned for the first
entry whose name lowercases to `"authorization"`, whose values are joined with
`"|"`; a `Headers` instance is queried case-insensitively; a plain object
yields `headers.Authorization ?? headers.authorization`.  Returns the value
found, or `none` when no authorization header is present.
-/
def findAuthorizationValue : RequestHeaders → Except String (Option String)
  | .null => .error "headers is null"
  | .arr entries =>
    match entries.find? (fun h => lowerAscii h.1 == "authorization") with
    | some h => .ok (some (String.intercalate "|" h.2))
    | none => .ok none
  | .headersObj entries =>
    .ok ((entries.find? (fun h => lowerAscii h.1 == "authorization")).map (·.2))
  | .obj authCap authLow => .ok (authCap.orElse fun _ => authLow)

/--
`AuthorizationCacheKeyComputer._getCacheKeyComponents` (Github.ts:100-118):
the base components followed by the authorization value; a missing *or empty*
authorization value is falsy in JS, so `if (!authorizationValue)` throws
`"no authorization header found"` for both.
-/
def cacheKeyComponentsAuth (url : String) (headers : RequestHeaders) :
    Except String (List String) :=
  match findAuthorizationValue headers with
  | .error e => .error e
  | .ok none => .error "no authorization header found"
  | .ok (some v) =>
    if v == "" then .error "no authorization header found"
    else .ok (cacheKeyComponents url ++ [v])

/-- `AuthorizationCacheKeyComputer.computeCacheKey`: md5 of the concatenated
identity-scoped components (inherited from `CacheKeyComputer`, Github.ts:84-90). -/
def computeCacheKeyAuth (url : String) (headers : RequestHeaders) :
    Except String String :=
  (cacheKeyComponentsAuth url headers).map fun cs => md5Hex (String.join cs)

/-- One stored cache record (`entities/CacheRecord`): validator + last payload.
Both fields are `required: true` in the mongoose schema. -/
structure CacheEntry (P : Type) where
  etag : String
  payload : P
  deriving DecidableEq

/-- The `CacheRecord` collection, keyed by the computed cache key
(at most one record per key). -/
abbrev CacheStore (P : Type) := List (String × CacheEntry P)

/-- `CacheRecord.findOne({ key })` (Github.ts:167-169). -/
def findOne {P : Type} (store : CacheStore P) (key : String) : Option (CacheEntry P) :=
  (store.find? (fun kv => kv.1 == key)).map (·.2)

/-- `cacheRecord.save()` (Github.ts:188-193): update the record for `key` in
place, or insert a fresh one. -/
def upsert {P : Type} (store : CacheStore P) (key : String) (e : CacheEntry P) :
    CacheStore P :=
  match store with
  | [] => [(key, e)]
  | kv :: rest => if kv.1 == key then (key, e) :: rest else kv :: upsert rest key e

/-- The origin's HTTP response as observed by `_fetch`: status code, the
optional `ETag` response header, and the parsed JSON body. -/
structure HttpResponse (P : Type) where
  status : Nat
  etag : Option String
  body : P

/-- node-fetch `response.ok`: status in the range 200-299. -/
def HttpResponse.ok {P : Type} (r : HttpResponse P) : Bool :=
  200 ≤ r.status && r.status < 300

/-- Outcome of one `_fetch` call: the value returned (or error thrown), the
cache store after the call, and the `If-None-Match` header attached to the
outbound request (attached iff a cache record existed, Github.ts:170-173). -/
structure FetchResult (P : Type) where
  result : Except String P
  store : CacheStore P
  sentIfNoneMatch : Option String

/--
`GitHubClient._fetch` (Github.ts:165-195), given the computed cache key and
the origin's response to the issued request:

1. look up the cache record, attaching its etag as `If-None-Match` if present;
2. on 304: return the cached payload, or throw `"cache record is null"` if no
   record exists;
3. on any other non-ok status: throw;
4. on 2xx: if the response carries no (or an empty, hence falsy) `ETag`,
   return the body without touching the store; otherwise upsert the record
   with the new etag and payload and return the body.
-/
def fetchConditional {P : Type} (cacheKey : String) (store : CacheStore P)
    (resp : HttpResponse P) : FetchResult P :=
  let cacheRecord := findOne store cacheKey
  let sent := cacheRecord.map (·.etag)
  if resp.status == 304 then
    match cacheRecord with
    | none => ⟨.error "cache record is null", store, sent⟩
    | some r => ⟨.ok r.payload, store, sent⟩
  else if !resp.ok then
    ⟨.error "github api request failed", store, sent⟩
  else
    match resp.etag with
    | none => ⟨.ok resp.body, store, sent⟩
    | some e =>
      if e == "" then ⟨.ok resp.body, store, sent⟩
      else ⟨.ok resp.body, upsert store cacheKey ⟨e, resp.body⟩, sent⟩

/-- A sequence of `_fetch` calls against the same cache key, each observing the
store left by the previous one; returns every call's outcome in order. -/
def fetchSeq {P : Type} (cacheKey : String) (store : CacheStore P) :
    List (HttpResponse P) → List (FetchResult P)
  | [] => []
  | r :: rs =>
    let out := fetchConditional cacheKey store r
    out :: fetchSeq cacheKey out.store rs

/-! ### Repository configuration (`Github.ts:34-75`) -/

/-- Per-label settings inside `RepositoryConfig` (Github.ts:38-41). -/
structure LabelConfig where
  enabled : Bool
  text : String
  deriving DecidableEq

/-- `RepositoryConfig` (Github.ts:34-43); the `labels` object is modelled by its
key/value entries (JS objects have no duplicate keys). -/
structure RepositoryConfig where
  version : Nat
  enabled : Bool
  labels : List (String × LabelConfig)
  deriving DecidableEq

/-- `repositoryConfigDefaults` (Github.ts:62-74). -/
def repositoryConfigDefaults : RepositoryConfig where
  version := 3
  enabled := true
  labels := ["bug", "enhancement", "question"].map fun label => (label, ⟨true, label⟩)

/-- `repositoryConfig.labels[key]` — JS property access on the labels object. -/
def labelLookup (labels : List (String × LabelConfig)) (k : String) : Option LabelConfig :=
  (labels.find? (fun kv => kv.1 == k)).map (·.2)

/-- A user-submitted (or YAML-parsed) repository config before defaults are
merged in: every field may be absent, as may each per-label field. -/
structure LabelConfigInput where
  enabled : Option Bool
  text : Option String
  deriving DecidableEq

/-- A possibly-incomplete `RepositoryConfig`, as produced by `YAML.parse` or
submitted to `mergeConfig` before `defaultsDeep`. -/
structure RepositoryConfigInput where
  version : Option Nat
  enabled : Option Bool
  labels : Option (List (String × LabelConfigInput))
  deriving DecidableEq

/-- `repositoryConfigSchema` (Github.ts:50-60, Joi): label keys must be one of
`bug`/`enhancement`/`question` and label text at most 50 characters; all fields
are optional.  (Type errors cannot arise in the typed embedding.) -/
def repositoryConfigSchemaValid (c : RepositoryConfigInput) : Bool :=
  match c.labels with
  | none => true
  | some ls =>
    ls.all fun kv =>
      (kv.1 == "bug" || kv.1 == "enhancement" || kv.1 == "question")
      && (match kv.2.text with
          | some t => decide (t.length ≤ 50)
          | none => true)

/-- lodash `defaultsDeep` on one label object: missing fields are filled from
the default label. -/
def labelDefaultsDeep (p : LabelConfigInput) (d : LabelConfig) : LabelConfig :=
  ⟨p.enabled.getD d.enabled, p.text.getD d.text⟩

/-- lodash `defaultsDeep` on the `labels` object: submitted keys keep their
order and are merged per key with the default label; default keys not
submitted are appended.  Submitted keys outside the defaults are rejected by
the schema before this merge ever runs (Joi pattern, Github.ts:53-59), so the
`filterMap` drops nothing on the inputs the code reaches. -/
def labelsDefaultsDeep (pl : List (String × LabelConfigInput))
    (dl : List (String × LabelConfig)) : List (String × LabelConfig) :=
  pl.filterMap (fun kv => (labelLookup dl kv.1).map fun d => (kv.1, labelDefaultsDeep kv.2 d))
    ++ dl.filter fun kv => (pl.find? (fun p => p.1 == kv.1)).isNone

/-- `_.defaultsDeep(_.cloneDeep(json), repositoryConfigDefaults)`
(Github.ts:549, 594-597); `cloneDeep` is the identity in value semantics. -/
def configDefaultsDeep (p : RepositoryConfigInput) : RepositoryConfig where
  version := p.version.getD repositoryConfigDefaults.version
  enabled := p.enabled.getD repositoryConfigDefaults.enabled
  labels :=
    match p.labels with
    | none => repositoryConfigDefaults.labels
    | some pl => labelsDefaultsDeep pl repositoryConfigDefaults.labels

/-! ### `getConfig` (`Github.ts:525-551`) -/

/-- The GitHub contents-API JSON body read by `getConfig`
(Github.ts:527-543): `{ type, encoding, content, sha }`.  A `null` JSON body
(the `if (!body)` case, Github.ts:532) is modelled as `Option.none` at the
fetch payload type. -/
structure ContentsBody where
  type : String
  encoding : String
  content : String
  sha : String
  deriving DecidableEq

/-- `RepositoryConfigResponse` (Github.ts:489-494).  The source field `exists`
is a Lean keyword and is embedded as `existsFlag`. -/
structure RepositoryConfigResponse where
  yaml : String
  json : RepositoryConfig
  sha : String
  existsFlag : Bool
  deriving DecidableEq

/--
`GitHubRepositoryClient.getConfig` (Github.ts:525-551), as a function of the
cache store and the origin's response to the config-file read.  External
library calls are parameters: `base64Decode` models
`Buffer.from(content, "base64").toString("utf8")` and `yamlParse` models
`YAML.parse` (`.error` = parse throw, `.ok none` = a non-object/null document,
which fails Joi validation just as in the source).  Returns the response
together with the cache store left by the underlying `_fetch`.
-/
def getConfig (base64Decode : String → String)
    (yamlParse : String → Except String (Option RepositoryConfigInput))
    (cacheKey : String) (store : CacheStore (Option ContentsBody))
    (resp : HttpResponse (Option ContentsBody)) :
    Except String (RepositoryConfigResponse × CacheStore (Option ContentsBody)) :=
  let out := fetchConditional cacheKey store resp
  match out.result with
  | .error e => .error e
  | .ok none =>
    .ok ({ yaml := "", json := repositoryConfigDefaults, sha := "", existsFlag := false },
      out.store)
  | .ok (some body) =>
    if body.type != "file" then .error "expected file"
    else if body.encoding != "base64" then .error "expected base64 encoding"
    else
      let yaml := base64Decode body.content
      match yamlParse yaml with
      | .error e => .error e
      | .ok parsed =>
        let json : RepositoryConfig :=
          match parsed with
          | some j =>
            if repositoryConfigSchemaValid j then configDefaultsDeep j
            else repositoryConfigDefaults
          | none => repositoryConfigDefaults
        .ok ({ yaml := yaml, json := json, sha := body.sha, existsFlag := true }, out.store)

/-! ### `mergeConfig` (`Github.ts:580-655`) -/

/-- Models `deep-object-diff`'s `detailedDiff(a, b)` (external library,
Github.ts:599-606) returning empty `added`/`deleted`/`updated` objects: for
plain JSON data that holds exactly when the two documents are deeply equal as
key/value maps, so label entries are compared per key, ignoring order. -/
def labelsDeepEqual (l1 l2 : List (String × LabelConfig)) : Bool :=
  (l1.all fun kv => labelLookup l2 kv.1 == some kv.2)
    && (l2.all fun kv => labelLookup l1 kv.1 == some kv.2)

/-- Deep equality of two repository configs; `detailedDiff` yields all-empty
diffs iff this holds. -/
def configDeepEqual (a b : RepositoryConfig) : Bool :=
  a.version == b.version && a.enabled == b.enabled && labelsDeepEqual a.labels b.labels

/-- A canonical YAML rendering of one label entry, for `applyDiffYaml`. -/
def yamlOfLabel (kv : String × LabelConfig) : String :=
  "  " ++ kv.1 ++ ":\n    enabled: " ++ (if kv.2.enabled then "true" else "false")
    ++ "\n    text: " ++ kv.2.text

/-- Modelled from the spec: the `yaml` library's
`parseDocument`/`setIn`/`deleteIn`/`toString` round trip (Github.ts:615-621)
is external library code.  Replaying the added/deleted/updated diffs onto the
raw document leaves a document whose semantic content is the merged
configuration, modelled here as a canonical rendering of that configuration
(the no-change claims below never inspect this text). -/
def applyDiffYaml (merged : RepositoryConfig) : String :=
  String.intercalate "\n"
    (["version: " ++ toString merged.version,
      "enabled: " ++ (if merged.enabled then "true" else "false"),
      "labels:"] ++ merged.labels.map yamlOfLabel)

/-- The outcome of `mergeConfig` up to the outbound HTTP boundary: the
no-change short-circuit (Github.ts:603-614, no HTTP call), the Joi
schema-validation throw (Github.ts:591-593), or the `PUT` of the updated yaml
with the supplied `sha` (Github.ts:623-641, whose final response depends on
the origin). -/
inductive MergeOutcome where
  | noChange (resp : RepositoryConfigResponse)
  | schemaError
  | putConfig (content : String) (sha : String)
  deriving DecidableEq

/-- `GitHubRepositoryClient.mergeConfig` (Github.ts:580-655) up to the
outbound HTTP boundary.  `!!sha` is string truthiness (`sha ≠ ""`). -/
def mergeConfig (repositoryConfig : RepositoryConfig) (repositoryConfigYaml : String)
    (sha : String) (updatedRepositoryConfig : RepositoryConfigInput) : MergeOutcome :=
  if !repositoryConfigSchemaValid updatedRepositoryConfig then .schemaError
  else
    let updated := configDefaultsDeep updatedRepositoryConfig
    if sha != "" && configDeepEqual repositoryConfig updated then
      .noChange
        { yaml := repositoryConfigYaml, json := repositoryConfig, sha := sha,
          existsFlag := true }
    else
      .putConfig (applyDiffYaml updated) sha

/-! ### Webhook handler (`WebhookApp.js:31-108`) -/

/-- `permissions[permission]` on the installation's permission map
(`{ [key: string]: string }`). -/
def permissionLookup (perms : List (String × String)) (k : String) : Option String :=
  (perms.find? (fun kv => kv.1 == k)).map (·.2)

/-- `GitHubInstallationClient.canRead` (Github.ts:449-451):
`["read", "write"].includes(this.permissions[permission])`. -/
def canRead (perms : List (String × String)) (k : String) : Bool :=
  match permissionLookup perms k with
  | some v => v == "read" || v == "write"
  | none => false

/-- `GitHubInstallationClient.canWrite` (Github.ts:453-455):
`["write"].includes(this.permissions[permission])`. -/
def canWrite (perms : List (String × String)) (k : String) : Bool :=
  match permissionLookup perms k with
  | some v => v == "write"
  | none => false

/-- The observable collaborator calls `handleIssueOpened` can make, in order.
`configWrite` (`createConfig`/`mergeConfig`) is never emitted by the handler;
it is a constructor so that its absence is expressible. -/
inductive WebhookCall where
  | createInstallationClient
  | configRead
  | configWrite
  | labelWrite (issue : Nat) (labels : List String)
  | revokeToken
  | telemetryClassified
  deriving DecidableEq

/-- The collaborator behaviour one `issues.opened` delivery observes: the
minted installation's permission map, the config `getConfig` would return
(its `json` field), and the classifier's `(labelKey, similarity)` prediction.
Similarity is an exact rational: the handler only compares it with `0`. -/
structure WebhookEnv where
  permissions : List (String × String)
  config : RepositoryConfig
  prediction : String × Rat

/-- The fields of `payload.issue` the handler reads (WebhookApp.js:36-65). -/
structure IssueEvent where
  number : Nat
  title : String
  body : String
  labels : List String

/--
`handleIssueOpened` (WebhookApp.js:35-73) as the ordered trace of collaborator
calls it performs: mint an installation client; return immediately unless
`canWrite("issues")`; read the repository config iff `canRead("single_file")`
(else use the defaults); look up the predicted label; when `similarity > 0`,
write the issue's labels with the configured text appended iff the label is
enabled (accessing `label.enabled` on a missing label key is a JS `TypeError`)
and emit the `Classified` telemetry event; finally revoke the access token.
-/
def handleIssueOpened (issue : IssueEvent) (env : WebhookEnv) :
    Except String (List WebhookCall) :=
  let calls : List WebhookCall := [.createInstallationClient]
  if !canWrite env.permissions "issues" then .ok calls
  else
    let readsConfig := canRead env.permissions "single_file"
    let calls := if readsConfig then calls ++ [.configRead] else calls
    let repositoryConfig := if readsConfig then env.config else repositoryConfigDefaults
    let (predictedLabelKey, similarity) := env.prediction
    let foundLabel := labelLookup repositoryConfig.labels predictedLabelKey
    if similarity > 0 then
      match foundLabel with
      | none => .error "TypeError: label is undefined"
      | some label =>
        let calls :=
          if label.enabled then
            calls ++ [.labelWrite issue.number (issue.labels ++ [label.text])]
          else calls
        .ok (calls ++ [.telemetryClassified, .revokeToken])
    else
      .ok (calls ++ [.revokeToken])

/-! ### Helper lemmas -/

theorem findOne_upsert {P : Type} (store : CacheStore P) (key : String) (e : CacheEntry P) :
    findOne (upsert store key e) key = some e := by
  induction store with
  | nil => simp [upsert, findOne, List.find?]
  | cons kv rest ih =>
    by_cases h : kv.1 == key
    · simp [upsert, findOne, List.find?, h]
    · simp only [upsert, h, if_false, Bool.false_eq_true]
      simpa [findOne, List.find?, h] using ih

theorem fetchConditional_304_with_record {P : Type} (cacheKey : String)
    (store : CacheStore P) (r : HttpResponse P) (e : CacheEntry P)
    (hrec : findOne store cacheKey = some e) (h : r.status = 304) :
    fetchConditional cacheKey store r = ⟨.ok e.payload, store, some e.etag⟩ := by
  simp [fetchConditional, hrec, h]

theorem fetchSeq_all_304 {P : Type} (cacheKey : String) (store : CacheStore P)
    (e : CacheEntry P) (rs : List (HttpResponse P))
    (hrec : findOne store cacheKey = some e) (h304 : ∀ r ∈ rs, r.status = 304) :
    fetchSeq cacheKey store rs =
      List.replicate rs.length ⟨.ok e.payload, store, some e.etag⟩ := by
  induction rs with
  | nil => simp [fetchSeq]
  | cons r rs ih =>
    have hr : r.status = 304 := h304 r (List.mem_cons_self r rs)
    have hstep := fetchConditional_304_with_record cacheKey store r e hrec hr
    simp only [fetchSeq, hstep, List.length_cons, List.replicate_succ]
    rw [ih fun x hx => h304 x (List.mem_cons_of_mem r hx)]

theorem string_append_left_cancel {x a b : String} (h : x ++ a = x ++ b) : a = b := by
  have hd : (x ++ a).data = (x ++ b).data := congrArg String.data h
  simp only [String.data_append] at hd
  exact String.ext (List.append_cancel_left hd)

theorem join3_inj {url A B : String}
    (h : String.join ["github", url, A] = String.join ["github", url, B]) : A = B := by
  have h' : (("" ++ "github") ++ url) ++ A = (("" ++ "github") ++ url) ++ B := h
  exact string_append_left_cancel h'

/-! ### Claim theorems -/

/-- Claim C1: Tenant isolation of cache keys.  For one url and any two header
sets (in any of the supported representations, over which `h1`, `h2` range)
from which the identity-scoped computation extracts distinct authorization
values and succeeds, the computed cache keys are distinct. -/
theorem tenantIsolation_cacheKeys (url : String) (h1 h2 : RequestHeaders)
    (A B k1 k2 : String)
    (hA : findAuthorizationValue h1 = .ok (some A))
    (hB : findAuthorizationValue h2 = .ok (some B))
    (hAB : A ≠ B)
    (hk1 : computeCacheKeyAuth url h1 = .ok k1)
    (hk2 : computeCacheKeyAuth url h2 = .ok k2) :
    k1 ≠ k2 := by
  by_cases hA0 : A = ""
  · simp [computeCacheKeyAuth, cacheKeyComponentsAuth, Except.map, hA, hA0] at hk1
  by_cases hB0 : B = ""
  · simp [computeCacheKeyAuth, cacheKeyComponentsAuth, Except.map, hB, hB0] at hk2
  simp [computeCacheKeyAuth, cacheKeyComponentsAuth, Except.map, hA, hA0] at hk1
  simp [computeCacheKeyAuth, cacheKeyComponentsAuth, Except.map, hB, hB0] at hk2
  subst hk1
  subst hk2
  intro heq
  exact hAB (join3_inj heq)

/-- Witness for C1 at two concrete bearer identities on the same url. -/
theorem tenantIsolation_cacheKeys_witness :
    ("githubhttps://api.github.com/usertoken a" : String)
      ≠ "githubhttps://api.github.com/usertoken b" :=
  tenantIsolation_cacheKeys "https://api.github.com/user"
    (.obj (some "token a") none) (.obj (some "token b") none)
    "token a" "token b" _ _ rfl rfl (by decide) rfl rfl

/-- Claim C2: No-etag passthrough.  A 2xx response without an `ETag` header
leaves the cache store untouched and its parsed body is returned to the
caller. -/
theorem noEtag_passthrough {P : Type} (cacheKey : String) (store : CacheStore P)
    (resp : HttpResponse P) (hlo : 200 ≤ resp.status) (hhi : resp.status < 300)
    (hetag : resp.etag = none) :
    (fetchConditional cacheKey store resp).result = .ok resp.body
    ∧ (fetchConditional cacheKey store resp).store = store := by
  have h304 : (resp.status == 304) = false := by
    have h : resp.status ≠ 304 := by omega
    simpa using h
  have hok : resp.ok = true := by
    simp only [HttpResponse.ok, Bool.and_eq_true, decide_eq_true_eq]
    omega
  simp [fetchConditional, h304, hok, hetag]

/-- Witness for C2: a 200 response with no etag on a store holding an
unrelated key. -/
theorem noEtag_passthrough_witness :
    (fetchConditional "k" ([("j", ⟨"W0", 1⟩)] : CacheStore Nat) ⟨200, none, 5⟩).result
        = .ok 5
    ∧ (fetchConditional "k" ([("j", ⟨"W0", 1⟩)] : CacheStore Nat) ⟨200, none, 5⟩).store
        = [("j", ⟨"W0", 1⟩)] :=
  noEtag_passthrough "k" [("j", ⟨"W0", 1⟩)] ⟨200, none, 5⟩ (by decide) (by decide) rfl

/-- Claim C3: 304 without a cache record is fatal.  When no record exists for
the computed key and the origin answers 304, `_fetch` throws
`"cache record is null"` (and returns no payload, leaving the store
untouched). -/
theorem fatal304_withoutRecord {P : Type} (cacheKey : String) (store : CacheStore P)
    (resp : HttpResponse P) (hrec : findOne store cacheKey = none)
    (h304 : resp.status = 304) :
    (fetchConditional cacheKey store resp).result = .error "cache record is null"
    ∧ (fetchConditional cacheKey store resp).store = store := by
  simp [fetchConditional, hrec, h304]

/-- Witness for C3: 304 against an empty store. -/
theorem fatal304_withoutRecord_witness :
    (fetchConditional "k" ([] : CacheStore Nat) ⟨304, none, 0⟩).result
        = .error "cache record is null"
    ∧ (fetchConditional "k" ([] : CacheStore Nat) ⟨304, none, 0⟩).store = [] :=
  fatal304_withoutRecord "k" [] ⟨304, none, 0⟩ rfl rfl

/-- Claim C4: Origin fetch failures propagate.  A status that is neither 2xx
nor 304 makes `_fetch` throw, returning no payload and writing nothing to the
cache store. -/
theorem originFailure_propagates {P : Type} (cacheKey : String) (store : CacheStore P)
    (resp : HttpResponse P)
    (hfail : ¬(200 ≤ resp.status ∧ resp.status < 300))
    (h304 : resp.status ≠ 304) :
    (fetchConditional cacheKey store resp).result = .error "github api request failed"
    ∧ (fetchConditional cacheKey store resp).store = store := by
  have hb : (resp.status == 304) = false := by simpa using h304
  have hok : resp.ok = false := by
    simp only [HttpResponse.ok, Bool.and_eq_false_iff, decide_eq_false_iff_not]
    omega
  simp [fetchConditional, hb, hok]

/-- Witness for C4: a 404 response. -/
theorem originFailure_propagates_witness :
    (fetchConditional "k" ([] : CacheStore Nat) ⟨404, none, 0⟩).result
        = .error "github api request failed"
    ∧ (fetchConditional "k" ([] : CacheStore Nat) ⟨404, none, 0⟩).store = [] :=
  originFailure_propagates "k" [] ⟨404, none, 0⟩ (by decide) (by decide)

/-- Claim C6: Conditional-request cache correctness.  After a first fetch
stores a record with etag `E` and payload `resp1.body`, every subsequent fetch
for the same key whose response is 304 attaches `If-None-Match = E`, returns
exactly the cached payload, and leaves the cache record unmodified. -/
theorem conditionalCache_correctness {P : Type} (cacheKey : String)
    (store0 : CacheStore P) (resp1 : HttpResponse P) (rs : List (HttpResponse P))
    (E : String) (hlo : 200 ≤ resp1.status) (hhi : resp1.status < 300)
    (hetag : resp1.etag = some E) (hE : E ≠ "")
    (h304 : ∀ r ∈ rs, r.status = 304) :
    fetchSeq cacheKey (fetchConditional cacheKey store0 resp1).store rs
      = List.replicate rs.length
          ⟨.ok resp1.body, (fetchConditional cacheKey store0 resp1).store, some E⟩ := by
  have h3 : (resp1.status == 304) = false := by
    have h : resp1.status ≠ 304 := by omega
    simpa using h
  have hok : resp1.ok = true := by
    simp only [HttpResponse.ok, Bool.and_eq_true, decide_eq_true_eq]
    omega
  have hEb : (E == "") = false := by simpa using hE
  have hstore : (fetchConditional cacheKey store0 resp1).store
      = upsert store0 cacheKey ⟨E, resp1.body⟩ := by
    simp [fetchConditional, h3, hok, hetag, hEb]
  rw [hstore]
  exact fetchSeq_all_304 cacheKey _ ⟨E, resp1.body⟩ rs
    (findOne_upsert store0 cacheKey ⟨E, resp1.body⟩) h304

/-- Witness for C6: one 200 response with etag `"W1"` followed by two 304s. -/
theorem conditionalCache_correctness_witness :
    fetchSeq "k" (fetchConditional "k" ([] : CacheStore Nat) ⟨200, some "W1", 7⟩).store
        [⟨304, none, 0⟩, ⟨304, none, 9⟩]
      = List.replicate 2
          ⟨.ok 7, (fetchConditional "k" ([] : CacheStore Nat) ⟨200, some "W1", 7⟩).store,
            some "W1"⟩ :=
  conditionalCache_correctness "k" [] ⟨200, some "W1", 7⟩ [⟨304, none, 0⟩, ⟨304, none, 9⟩]
    "W1" (by decide) (by decide) rfl (by decide) (by decide)

/-- Claim C9, counterexample to the claim as stated: a request whose headers do
contain an authorization header — the plain-object `Authorization` property is
present, with the empty string as its value — still makes the identity-scoped
key computation raise, because `if (!authorizationValue)` treats the empty
string as falsy.  This refutes "conversely, when an authorization header is
present it succeeds". -/
theorem authCacheKey_emptyValue_counterexample :
    computeCacheKeyAuth "https://api.github.com/user" (.obj (some "") none)
      = .error "no authorization header found" := rfl

/-- Claim C9 (amended): for every request whose headers, in any supported
representation, contain no authorization value — and also when the extracted
value is the empty string — the identity-scoped computation raises (never
falling back to the base key, since it returns no key at all); conversely,
when an authorization header with a non-empty value is present it succeeds. -/
theorem authCacheKey_failsFast (url : String)
    (entriesA : List (String × List String)) (entriesH : List (String × String))
    (v : String) (lo : Option String)
    (hA : ∀ h ∈ entriesA, ¬ lowerAscii h.1 = "authorization")
    (hH : ∀ h ∈ entriesH, ¬ lowerAscii h.1 = "authorization")
    (hv : v ≠ "") :
    computeCacheKeyAuth url .null = .error "headers is null"
    ∧ computeCacheKeyAuth url (.arr entriesA) = .error "no authorization header found"
    ∧ computeCacheKeyAuth url (.headersObj entriesH) = .error "no authorization header found"
    ∧ computeCacheKeyAuth url (.obj none none) = .error "no authorization header found"
    ∧ computeCacheKeyAuth url (.obj (some v) lo)
        = .ok (md5Hex (String.join (cacheKeyComponents url ++ [v]))) := by
  have hfA : entriesA.find? (fun h => lowerAscii h.1 == "authorization") = none := by
    rw [List.find?_eq_none]
    intro x hx
    simpa using hA x hx
  have hfH : entriesH.find? (fun h => lowerAscii h.1 == "authorization") = none := by
    rw [List.find?_eq_none]
    intro x hx
    simpa using hH x hx
  refine ⟨rfl, ?_, ?_, rfl, ?_⟩
  · simp [computeCacheKeyAuth, cacheKeyComponentsAuth, findAuthorizationValue,
      Except.map, hfA]
  · simp [computeCacheKeyAuth, cacheKeyComponentsAuth, findAuthorizationValue,
      Except.map, hfH]
  · simp [computeCacheKeyAuth, cacheKeyComponentsAuth, findAuthorizationValue,
      Except.map, Option.orElse, hv]

/-- Witness for the amended C9: headers with no authorization entry in the
array and Headers representations, and a plain object carrying a non-empty
token. -/
theorem authCacheKey_failsFast_witness :
    computeCacheKeyAuth "u" .null = .error "headers is null"
    ∧ computeCacheKeyAuth "u" (.arr [("Accept", ["json"])])
        = .error "no authorization header found"
    ∧ computeCacheKeyAuth "u" (.headersObj [("accept", "json")])
        = .error "no authorization header found"
    ∧ computeCacheKeyAuth "u" (.obj none none)
        = .error "no authorization header found"
    ∧ computeCacheKeyAuth "u" (.obj (some "token t") none)
        = .ok (md5Hex (String.join (cacheKeyComponents "u" ++ ["token t"]))) :=
  authCacheKey_failsFast "u" [("Accept", ["json"])] [("accept", "json")] "token t" none
    (by decide) (by decide) (by decide)

/-- Claim C5, code-bug demonstration: a 404 on the config-file read makes
`getConfig` raise rather than return the defaults with `exists = false`.
`_fetch` throws for every non-ok status (Github.ts:182) before `getConfig`'s
absent-config branch (Github.ts:532-539) can run, leaving that branch
unreachable; the claim describes the behaviour of that branch (live in the
superseded `github.js:387-414` variant, whose `_fetchJsonConditional` returns
`null` on non-ok). -/
theorem getConfig_404_raises :
    getConfig id (fun _ => .ok none) "k" [] ⟨404, none, none⟩
      = .error "github api request failed" := rfl

/-- Claim C7: Permission gate.  When the installation's permission map does
not grant write on `"issues"`, the handler performs no config read, no label
write, no revocation (and no config write): the trace stops at the
installation-client mint and the handler returns. -/
theorem permissionGate_noWrite (issue : IssueEvent) (env : WebhookEnv)
    (h : canWrite env.permissions "issues" = false) :
    handleIssueOpened issue env = .ok [.createInstallationClient] := by
  simp [handleIssueOpened, h]

/-- Witness for C7: an installation holding only `issues: read`. -/
theorem permissionGate_noWrite_witness :
    handleIssueOpened ⟨62, "title", "body", []⟩
        ⟨[("issues", "read")], repositoryConfigDefaults, ("bug", 1)⟩
      = .ok [.createInstallationClient] :=
  permissionGate_noWrite ⟨62, "title", "body", []⟩
    ⟨[("issues", "read")], repositoryConfigDefaults, ("bug", 1)⟩ (by decide)

/-- Claim C8: End-to-end issue-opened scenario.  With `issues: write` and
`single_file: read`, prediction `("bug", 0.82)` and an enabled `bug` label
with text `"bug"`, the handler's trace is exactly: mint installation client,
one config read, one label write appending `"bug"` to the issue's existing
labels, the telemetry event, and one token revocation — in that order, with
no config write. -/
theorem endToEnd_issueOpened (issue : IssueEvent) (env : WebhookEnv)
    (hw : canWrite env.permissions "issues" = true)
    (hr : canRead env.permissions "single_file" = true)
    (hp : env.prediction = ("bug", (82 : Rat) / 100))
    (hl : labelLookup env.config.labels "bug" = some ⟨true, "bug"⟩) :
    handleIssueOpened issue env
      = .ok [.createInstallationClient, .configRead,
          .labelWrite issue.number (issue.labels ++ ["bug"]),
          .telemetryClassified, .revokeToken] := by
  have hpos : (0 : Rat) < 82 / 100 := by norm_num
  simp [handleIssueOpened, hw, hr, hp, hl, hpos]

/-- Witness for C8 at the concrete scenario of the spec's test property. -/
theorem endToEnd_issueOpened_witness :
    handleIssueOpened ⟨62, "title", "body", ["existing"]⟩
        ⟨[("issues", "write"), ("single_file", "read")], repositoryConfigDefaults,
          ("bug", (82 : Rat) / 100)⟩
      = .ok [.createInstallationClient, .configRead,
          .labelWrite 62 ["existing", "bug"],
          .telemetryClassified, .revokeToken] :=
  endToEnd_issueOpened ⟨62, "title", "body", ["existing"]⟩
    ⟨[("issues", "write"), ("single_file", "read")], repositoryConfigDefaults,
      ("bug", (82 : Rat) / 100)⟩
    (by decide) (by decide) rfl (by decide)

/-- Claim C10: `mergeConfig` is a no-op when nothing changed.  With a
non-empty `sha` and a (schema-valid) submitted configuration that, after
defaults are merged in, is deeply equal to the current configuration (all
diffs empty), `mergeConfig` issues no HTTP write and returns exactly the input
configuration, yaml and sha with `exists = true`. -/
theorem mergeConfig_noChange (repositoryConfig : RepositoryConfig)
    (repositoryConfigYaml : String) (sha : String)
    (updated : RepositoryConfigInput)
    (hvalid : repositoryConfigSchemaValid updated = true)
    (hsha : sha ≠ "")
    (heq : configDeepEqual repositoryConfig (configDefaultsDeep updated) = true) :
    mergeConfig repositoryConfig repositoryConfigYaml sha updated
      = .noChange ⟨repositoryConfigYaml, repositoryConfig, sha, true⟩ := by
  have hs : (sha != "") = true := by simpa using hsha
  simp [mergeConfig, hvalid, hs, heq]

/-- Witness for C10: resubmitting an empty update over the default
configuration with a non-empty sha. -/
theorem mergeConfig_noChange_witness :
    mergeConfig repositoryConfigDefaults "enabled: true" "abc123" ⟨none, none, none⟩
      = .noChange ⟨"enabled: true", repositoryConfigDefaults, "abc123", true⟩ :=
  mergeConfig_noChange repositoryConfigDefaults "enabled: true" "abc123"
    ⟨none, none, none⟩ (by decide) (by decide) (by decide)

end TicketTagger
